import Mathlib

/-!
Shallow embedding of `sushy/resources/system/storage/drive.py` (the `Drive`
resource of the sushy Redfish client library).

The operations of `Drive` are modelled as pure functions from a connector and
a drive state to a result, a successor drive state and a trace of the network
operations issued (GET / PATCH / POST).  Collaborating modules that are not
part of the provided source (`sushy.resources.base`, `sushy.utils`,
`sushy.resources.mappings`, `sushy.exceptions`, `sushy.taskmonitor`) are
modelled from the specification; each such definition carries a doc comment
starting with `Modelled from the spec:`.
-/

set_option autoImplicit false

namespace Sushy

/-- A request payload or parsed body fragment: an ordered association list of
wire keys to wire string values (models the Python `dict` literals built by
`set_indicator_led` and `_secure_erase`). -/
abbrev Payload := List (String × String)

/-- Transport-level failures surfaced by the connector
(`ConnectionError` / `HTTPError` in sushy). -/
inductive TransportError where
  | connectionError
  | httpError (status : Nat)
  deriving DecidableEq, Repr

/-- Modelled from the spec: the error taxonomy of `sushy.exceptions` plus the
raw Python failures an unguarded mapping/attribute access can raise.
`invalidParameterValue` carries the parameter name, the offending value and
the valid set; `missingAction` carries the action name and the resource path;
`missingAttribute` carries the attribute name and the resource path. -/
inductive SushyError where
  | invalidParameterValue (parameter : String) (value : String)
      (validValues : List String)
  | missingAction (action : String) (resource : String)
  | missingAttribute (attr : String) (resource : String)
  | keyError (key : String)
  | attributeError (attr : String)
  | transport (e : TransportError)
  deriving DecidableEq, Repr

/-- One network operation issued through the connector. -/
inductive NetOp where
  | get (path : String)
  | patch (path : String) (data : Payload)
  | post (path : String) (data : Payload) (blocking : Bool)
  deriving DecidableEq, Repr

/-- The resolved element of `common.ActionField` for one action of the action
table: its `target` URI (required by the field declaration). -/
structure ActionElem where
  target_uri : String
  deriving DecidableEq, Repr

/-- `ActionsField` of `drive.py`: the composite field over the wire key
`Actions`, declaring `secure_erase = common.ActionField('#Drive.SecureErase')`.
The named action may be absent from the table independently of the table
itself being present. -/
structure ActionsField where
  secure_erase : Option ActionElem
  deriving DecidableEq, Repr

/-- The parsed wire document of a drive, restricted to the fields the
modelled operations read.  `linksVolumes` is the `Links.Volumes` reference
list: `none` when the key path is absent, otherwise the list of reference
objects, each carrying its `@odata.id` target path or `none` when the item
lacks it (malformed).  `actions` is `none` when the whole `Actions` table is
absent. -/
structure Document where
  linksVolumes : Option (List (Option String))
  actions : Option ActionsField
  deriving DecidableEq, Repr

/-- Modelled from the spec: the connector capability consumed by a Resource
(`get`, `patch`, `post` against a base URI).  `nid` is an identity used to
state that sub-resources are bound to the same connector; `getDoc` returns
the parsed body of a GET; `patchResp` and `postResp` return an abstract
response token or a transport failure. -/
structure Connector where
  nid : Nat
  getDoc : String → Document
  patchResp : String → Payload → Except TransportError Nat
  postResp : String → Payload → Bool → Except TransportError Nat

/-- A `Volume` resource as constructed by `Drive.volumes`: bound to a
connector (by identity), a path, and the drive's protocol version and
registries. -/
structure DriveVolume where
  connId : Nat
  path : String
  redfishVersion : String
  registries : Nat
  deriving DecidableEq, Repr

/-- The local state of a `Drive` resource: its stable path, protocol version
and registries (opaque here), the cached parsed `Document` (`none` once
dropped by invalidation) and the cached derived `volumes` property. -/
structure Drive where
  path : String
  redfishVersion : String
  registries : Nat
  doc : Option Document
  volumesCache : Option (List DriveVolume)
  deriving DecidableEq, Repr

/-- `sushy.taskmonitor.TaskMonitor` as produced by
`TaskMonitor.from_response(conn, response, target_uri, redfish_version,
registries)`: the task handle returned by `secure_erase`. -/
structure TaskMonitor where
  connId : Nat
  response : Nat
  taskMonitorUri : String
  redfishVersion : String
  registries : Nat
  deriving DecidableEq, Repr

/-- `TaskMonitor.from_response`: constructs the task handle from the POST
response and the invoked target URI. -/
def TaskMonitor.fromResponse (c : Connector) (response : Nat)
    (targetUri : String) (redfishVersion : String) (registries : Nat) :
    TaskMonitor :=
  ⟨c.nid, response, targetUri, redfishVersion, registries⟩

/-- Modelled from the spec: `res_maps.INDICATOR_LED_VALUE_MAP_REV`, the
reverse (domain → wire) mapping for the writable indicator-LED enum.  The
domain constants are lit, blinking and off (the values named by the
`set_indicator_led` docstring); iteration order of the table gives the
`valid_values` list. -/
def INDICATOR_LED_VALUE_MAP_REV : List (String × String) :=
  [("indicator led lit", "Lit"),
   ("indicator led blinking", "Blinking"),
   ("indicator led off", "Off")]

/-- Modelled from the spec: `res_maps.APPLY_TIME_VALUE_MAP_REV`, the reverse
(domain → wire) mapping for the operation-apply-time enum
(`APPLY_TIME_IMMEDIATE`, `APPLY_TIME_ON_RESET` per the `secure_erase`
docstring).  A raw Python mapping: looked up with `[...]`, an absent key is a
`KeyError`. -/
def APPLY_TIME_VALUE_MAP_REV : List (String × String) :=
  [("immediate", "Immediate"), ("on reset", "OnReset")]

/-- Python truthiness of an optional string argument defaulting to `None`:
`None` and the empty string are falsy. -/
def pyTruthy : Option String → Bool
  | none => false
  | some s => s ≠ ""

/-- Modelled from the spec: the lazy re-fetch of the Resource base — when the
cached `Document` has been dropped, the next attribute access fetches it
again through the connector; otherwise the cached document is used with no
network traffic. -/
def ensureDoc (c : Connector) (s : Drive) : Document × Drive × List NetOp :=
  match s.doc with
  | some d => (d, s, [])
  | none =>
      let d := c.getDoc s.path
      (d, { s with doc := some d }, [NetOp.get s.path])

/-- Modelled from the spec: `Resource.invalidate` — discards the cached
`Document` and every derived cached property; does not re-fetch eagerly. -/
def Drive.invalidate (s : Drive) : Drive :=
  { s with doc := none, volumesCache := none }

/-- Modelled from the spec: the core of `utils.get_sub_resource_path_by`
over a reference list — each reference object must carry its `@odata.id`
target; a malformed item fails with `MissingAttributeError`. -/
def resolveRefs (items : List (Option String)) (resPath : String) :
    Except SushyError (List String) :=
  match items with
  | [] => Except.ok []
  | none :: _ =>
      Except.error (SushyError.missingAttribute "@odata.id" resPath)
  | some p :: rest =>
      match resolveRefs rest resPath with
      | Except.ok ps => Except.ok (p :: ps)
      | Except.error e => Except.error e

/-- Modelled from the spec: `utils.get_sub_resource_path_by(self,
["Links", "Volumes"], is_collection=True)` — walks the document along the
declared key path; fails with `MissingAttributeError` if the key path is
absent; returns the ordered sequence of target paths (empty if there are no
references). -/
def getSubResourcePathBy (d : Document) (resPath : String) :
    Except SushyError (List String) :=
  match d.linksVolumes with
  | none =>
      Except.error (SushyError.missingAttribute "Links/Volumes" resPath)
  | some items => resolveRefs items resPath

/-- `Drive.volumes`, a cached derived property (`@utils.cache_it`): on a
cache hit the cached sequence is returned with no network traffic; on a miss
the `Links.Volumes` reference list is resolved and each path is wrapped into
a freshly constructed (and fetched) `Volume` bound to the same connector,
protocol version and registries, and the result is cached. -/
def Drive.volumes (c : Connector) (s : Drive) :
    Except SushyError (List DriveVolume) × Drive × List NetOp :=
  match s.volumesCache with
  | some vs => (Except.ok vs, s, [])
  | none =>
      match ensureDoc c s with
      | (d, s1, t0) =>
        match getSubResourcePathBy d s.path with
        | Except.error e => (Except.error e, s1, t0)
        | Except.ok paths =>
            let vs := paths.map fun p =>
              DriveVolume.mk c.nid p s.redfishVersion s.registries
            (Except.ok vs, { s1 with volumesCache := some vs },
             t0 ++ paths.map NetOp.get)

/-- `Drive.set_indicator_led(state)`: validates `state` against the reverse
indicator-LED mapping, failing with `InvalidParameterValueError` (naming the
parameter, the offending value and the valid set) with no network traffic;
otherwise PATCHes the drive path with the reverse-mapped wire value and, on
success, invalidates the resource.  A transport failure propagates and skips
the invalidation. -/
def Drive.setIndicatorLed (c : Connector) (s : Drive) (state : String) :
    Except SushyError Unit × Drive × List NetOp :=
  match INDICATOR_LED_VALUE_MAP_REV.lookup state with
  | none =>
      (Except.error (SushyError.invalidParameterValue "state" state
        (INDICATOR_LED_VALUE_MAP_REV.map Prod.fst)), s, [])
  | some wire =>
      let data : Payload := [("IndicatorLED", wire)]
      match c.patchResp s.path data with
      | Except.error e =>
          (Except.error (SushyError.transport e), s, [NetOp.patch s.path data])
      | Except.ok _ =>
          (Except.ok (), s.invalidate, [NetOp.patch s.path data])

/-- `Drive._get_secure_erase_action_element`: reads the resolved action
table; a table whose `secure_erase` element is falsy raises
`MissingActionError` (with the action name the source spells
`#Disk.SecureErase`); an absent table makes the attribute access itself fail
(`None` has no attribute `secure_erase`). -/
def getSecureEraseActionElement (d : Document) (resPath : String) :
    Except SushyError ActionElem :=
  match d.actions with
  | none => Except.error (SushyError.attributeError "secure_erase")
  | some t =>
      match t.secure_erase with
      | none =>
          Except.error (SushyError.missingAction "#Disk.SecureErase" resPath)
      | some el => Except.ok el

/-- The payload construction of `Drive._secure_erase`: starts from an empty
dict; when `apply_time` is truthy, stores the raw reverse-map lookup of it
under `@Redfish.OperationApplyTime` — an unguarded lookup, so a truthy value
outside the mapping is a `KeyError`. -/
def buildSecureErasePayload (apply_time : Option String) :
    Except SushyError Payload :=
  if pyTruthy apply_time then
    match apply_time with
    | none => Except.ok []
    | some a =>
        match APPLY_TIME_VALUE_MAP_REV.lookup a with
        | some w => Except.ok [("@Redfish.OperationApplyTime", w)]
        | none => Except.error (SushyError.keyError a)
  else Except.ok []

/-- `Drive._secure_erase(apply_time)`: builds the payload, resolves the
secure-erase action element, then issues one non-blocking POST to its target
URI, returning the response token and the target URI. -/
def Drive.secureErasePost (c : Connector) (s : Drive)
    (apply_time : Option String) :
    Except SushyError (Nat × String) × Drive × List NetOp :=
  match buildSecureErasePayload apply_time with
  | Except.error e => (Except.error e, s, [])
  | Except.ok payload =>
      match ensureDoc c s with
      | (d, s1, t0) =>
        match getSecureEraseActionElement d s.path with
        | Except.error e => (Except.error e, s1, t0)
        | Except.ok el =>
            match c.postResp el.target_uri payload false with
            | Except.error e =>
                (Except.error (SushyError.transport e), s1,
                 t0 ++ [NetOp.post el.target_uri payload false])
            | Except.ok r =>
                (Except.ok (r, el.target_uri), s1,
                 t0 ++ [NetOp.post el.target_uri payload false])

/-- `Drive.secure_erase(apply_time=None)`: delegates to `_secure_erase` and
wraps the response into a `TaskMonitor`; never invalidates the local
resource. -/
def Drive.secureErase (c : Connector) (s : Drive)
    (apply_time : Option String) :
    Except SushyError TaskMonitor × Drive × List NetOp :=
  match Drive.secureErasePost c s apply_time with
  | (Except.error e, s1, t) => (Except.error e, s1, t)
  | (Except.ok (r, target_uri), s1, t) =>
      (Except.ok (TaskMonitor.fromResponse c r target_uri
        s.redfishVersion s.registries), s1, t)

/-! Concrete fixtures used to instantiate the theorems below. -/

/-- A sample action table advertising the secure-erase action. -/
def sampleActions : ActionsField :=
  ⟨some ⟨"/redfish/v1/Systems/1/Storage/1/Drives/1/Actions/Drive.SecureErase"⟩⟩

/-- A sample drive document with two volume references and the sample action
table. -/
def sampleDoc : Document :=
  ⟨some [some "/redfish/v1/Systems/1/Storage/1/Volumes/0",
         some "/redfish/v1/Systems/1/Storage/1/Volumes/1"],
   some sampleActions⟩

/-- A sample drive state holding `sampleDoc` with an empty derived cache. -/
def sampleDrive : Drive :=
  ⟨"/redfish/v1/Systems/1/Storage/1/Drives/1", "1.0.2", 0,
   some sampleDoc, none⟩

/-- A connector whose writes succeed and whose GET returns `sampleDoc`. -/
def okConn : Connector :=
  ⟨7, fun _ => sampleDoc, fun _ _ => Except.ok 11,
   fun _ _ _ => Except.ok 22⟩

/-- A connector whose PATCH fails with a connection error. -/
def failPatchConn : Connector :=
  ⟨7, fun _ => sampleDoc, fun _ _ => Except.error TransportError.connectionError,
   fun _ _ _ => Except.ok 22⟩

/-! Helper lemmas. -/

/-- Resolving a reference list in which every item carries its target path
yields exactly those paths, in order. -/
theorem resolveRefs_map_some (paths : List String) (rp : String) :
    resolveRefs (paths.map some) rp = Except.ok paths := by
  induction paths with
  | nil => rfl
  | cons p ps ih => simp [resolveRefs, ih]

/-- A state outside the keys of the indicator-LED reverse map has no
lookup entry. -/
theorem indicator_lookup_eq_none (state : String)
    (h : state ∉ INDICATOR_LED_VALUE_MAP_REV.map Prod.fst) :
    INDICATOR_LED_VALUE_MAP_REV.lookup state = none := by
  simp only [INDICATOR_LED_VALUE_MAP_REV, List.map, List.mem_cons,
    List.not_mem_nil, or_false] at h
  push_neg at h
  obtain ⟨h1, h2, h3⟩ := h
  simp [INDICATOR_LED_VALUE_MAP_REV, List.lookup,
    beq_eq_false_iff_ne.mpr h1, beq_eq_false_iff_ne.mpr h2,
    beq_eq_false_iff_ne.mpr h3]

/-! Claim theorems. -/

/-- C1: for every state value that is not a key of the indicator-LED
reverse mapping, `Drive.set_indicator_led(state)` raises
`InvalidParameterValueError` naming the parameter `state`, the offending
value and the full valid set, leaves the drive untouched, and issues no
network operation at all (in particular no PATCH). -/
theorem set_indicator_led_invalid_state_raises_and_no_patch
    (c : Connector) (s : Drive) (state : String)
    (h : state ∉ INDICATOR_LED_VALUE_MAP_REV.map Prod.fst) :
    Drive.setIndicatorLed c s state =
      (Except.error (SushyError.invalidParameterValue "state" state
        (INDICATOR_LED_VALUE_MAP_REV.map Prod.fst)), s, []) := by
  simp [Drive.setIndicatorLed, indicator_lookup_eq_none state h]

/-- Witness for C1 at the concrete invalid state `"bogus"`. -/
theorem set_indicator_led_invalid_state_witness :
    "bogus" ∉ INDICATOR_LED_VALUE_MAP_REV.map Prod.fst ∧
    Drive.setIndicatorLed okConn sampleDrive "bogus" =
      (Except.error (SushyError.invalidParameterValue "state" "bogus"
        (INDICATOR_LED_VALUE_MAP_REV.map Prod.fst)), sampleDrive, []) :=
  ⟨by decide,
   set_indicator_led_invalid_state_raises_and_no_patch okConn sampleDrive
     "bogus" (by decide)⟩

/-- C3: for every state value that is a key of the indicator-LED reverse
mapping, `Drive.set_indicator_led(state)` issues exactly one PATCH to the
drive's own path with body `{IndicatorLED: reverse-mapped wire value}` and,
when the PATCH succeeds, invalidates the resource (drops the cached document
and the derived cached properties). -/
theorem set_indicator_led_valid_state_patches_and_invalidates
    (c : Connector) (s : Drive) (state wire : String) (r : Nat)
    (hw : INDICATOR_LED_VALUE_MAP_REV.lookup state = some wire)
    (hp : c.patchResp s.path [("IndicatorLED", wire)] = Except.ok r) :
    Drive.setIndicatorLed c s state =
      (Except.ok (), { s with doc := none, volumesCache := none },
       [NetOp.patch s.path [("IndicatorLED", wire)]]) := by
  simp [Drive.setIndicatorLed, hw, hp, Drive.invalidate]

/-- Witness for C3 at the concrete valid state lit. -/
theorem set_indicator_led_valid_state_witness :
    INDICATOR_LED_VALUE_MAP_REV.lookup "indicator led lit" = some "Lit" ∧
    okConn.patchResp sampleDrive.path [("IndicatorLED", "Lit")] =
      Except.ok 11 ∧
    Drive.setIndicatorLed okConn sampleDrive "indicator led lit" =
      (Except.ok (),
       { sampleDrive with doc := none, volumesCache := none },
       [NetOp.patch sampleDrive.path [("IndicatorLED", "Lit")]]) :=
  ⟨by decide, rfl,
   set_indicator_led_valid_state_patches_and_invalidates okConn sampleDrive
     "indicator led lit" "Lit" 11 (by decide) rfl⟩

/-- C10: `Drive.set_indicator_led` is atomic with respect to the local
cache on transport failure — for every valid state, if the PATCH fails, the
error propagates and the drive state (cached document and derived cached
properties) is exactly the state before the call. -/
theorem set_indicator_led_transport_failure_preserves_state
    (c : Connector) (s : Drive) (state wire : String) (e : TransportError)
    (hw : INDICATOR_LED_VALUE_MAP_REV.lookup state = some wire)
    (hp : c.patchResp s.path [("IndicatorLED", wire)] = Except.error e) :
    Drive.setIndicatorLed c s state =
      (Except.error (SushyError.transport e), s,
       [NetOp.patch s.path [("IndicatorLED", wire)]]) := by
  simp [Drive.setIndicatorLed, hw, hp]

/-- Witness for C10 at the concrete valid state lit and a failing
connector. -/
theorem set_indicator_led_transport_failure_witness :
    INDICATOR_LED_VALUE_MAP_REV.lookup "indicator led lit" = some "Lit" ∧
    failPatchConn.patchResp sampleDrive.path [("IndicatorLED", "Lit")] =
      Except.error TransportError.connectionError ∧
    Drive.setIndicatorLed failPatchConn sampleDrive "indicator led lit" =
      (Except.error (SushyError.transport TransportError.connectionError),
       sampleDrive,
       [NetOp.patch sampleDrive.path [("IndicatorLED", "Lit")]]) :=
  ⟨by decide, rfl,
   set_indicator_led_transport_failure_preserves_state failPatchConn
     sampleDrive "indicator led lit" "Lit"
     TransportError.connectionError (by decide) rfl⟩

/-- C2: on a document whose action table does not advertise the
secure-erase action, `Drive.secure_erase` raises `MissingActionError`
(naming the action and the resource path), leaves the drive untouched and
issues no network operation (in particular no POST). -/
theorem secure_erase_missing_action_raises_and_no_post
    (c : Connector) (s : Drive) (d : Document) (t : ActionsField)
    (apply_time : Option String) (payload : Payload)
    (hdoc : s.doc = some d) (ht : d.actions = some t)
    (hse : t.secure_erase = none)
    (hpl : buildSecureErasePayload apply_time = Except.ok payload) :
    Drive.secureErase c s apply_time =
      (Except.error (SushyError.missingAction "#Disk.SecureErase" s.path),
       s, []) := by
  simp [Drive.secureErase, Drive.secureErasePost, hpl, ensureDoc, hdoc,
    getSecureEraseActionElement, ht, hse]

/-- Witness for C2 on a concrete document with an action table lacking the
secure-erase action. -/
theorem secure_erase_missing_action_witness :
    (Drive.mk "/d1" "1.0.2" 0
        (some (Document.mk (some []) (some (ActionsField.mk none))))
        none).doc =
      some (Document.mk (some []) (some (ActionsField.mk none))) ∧
    (Document.mk (some []) (some (ActionsField.mk none))).actions =
      some (ActionsField.mk none) ∧
    (ActionsField.mk none).secure_erase = none ∧
    buildSecureErasePayload none = Except.ok [] ∧
    Drive.secureErase okConn
      (Drive.mk "/d1" "1.0.2" 0
        (some (Document.mk (some []) (some (ActionsField.mk none)))) none)
      none =
      (Except.error (SushyError.missingAction "#Disk.SecureErase" "/d1"),
       Drive.mk "/d1" "1.0.2" 0
         (some (Document.mk (some []) (some (ActionsField.mk none)))) none,
       []) :=
  ⟨rfl, rfl, rfl, rfl,
   secure_erase_missing_action_raises_and_no_post okConn
     (Drive.mk "/d1" "1.0.2" 0
       (some (Document.mk (some []) (some (ActionsField.mk none)))) none)
     (Document.mk (some []) (some (ActionsField.mk none)))
     (ActionsField.mk none) none [] rfl rfl rfl rfl⟩

/-- C5 (code bug): a truthy apply-time value outside the apply-time reverse
mapping makes `Drive.secure_erase` fail with a raw `KeyError` from the
unguarded mapping access — not with the `InvalidParameterValueError` its own
docstring promises — though indeed no POST is issued.  Evaluated at the
concrete offending value `"bogus"`. -/
theorem secure_erase_invalid_apply_time_keyerror :
    Drive.secureErase okConn sampleDrive (some "bogus") =
      (Except.error (SushyError.keyError "bogus"), sampleDrive, []) := by
  rfl

/-- A key with an entry in the apply-time reverse map is truthy (the table
keys are non-empty strings). -/
theorem apply_time_key_ne_empty (a w : String)
    (hw : APPLY_TIME_VALUE_MAP_REV.lookup a = some w) : a ≠ "" := by
  intro he
  subst he
  simp [APPLY_TIME_VALUE_MAP_REV, List.lookup] at hw

/-- C4: on a document advertising the secure-erase action and with an
apply-time argument inside its declared domain, `Drive.secure_erase` issues
exactly one non-blocking POST to the action's target URI and returns the
`TaskMonitor` built from the POST response; the payload carries
`@Redfish.OperationApplyTime` mapped to the reverse-mapped wire value
exactly when `apply_time` is provided, and is empty otherwise. -/
theorem secure_erase_posts_and_returns_task_monitor
    (c : Connector) (s : Drive) (d : Document) (t : ActionsField)
    (el : ActionElem) (apply_time : Option String) (payload : Payload)
    (r : Nat)
    (hdoc : s.doc = some d) (ht : d.actions = some t)
    (hse : t.secure_erase = some el)
    (hdom : (apply_time.bind fun a =>
      APPLY_TIME_VALUE_MAP_REV.lookup a).isSome = apply_time.isSome)
    (hpl : buildSecureErasePayload apply_time = Except.ok payload)
    (hpost : c.postResp el.target_uri payload false = Except.ok r) :
    Drive.secureErase c s apply_time =
      (Except.ok (TaskMonitor.fromResponse c r el.target_uri
        s.redfishVersion s.registries), s,
       [NetOp.post el.target_uri payload false]) ∧
    payload =
      (match apply_time.bind fun a => APPLY_TIME_VALUE_MAP_REV.lookup a with
       | some w => [("@Redfish.OperationApplyTime", w)]
       | none => []) := by
  constructor
  · simp [Drive.secureErase, Drive.secureErasePost, hpl, ensureDoc, hdoc,
      getSecureEraseActionElement, ht, hse, hpost]
  · cases apply_time with
    | none =>
        have h0 : buildSecureErasePayload none = Except.ok ([] : Payload) :=
          rfl
        rw [h0] at hpl
        injection hpl with h
        simp [← h]
    | some a =>
        simp only [Option.some_bind, Option.isSome_some] at hdom
        obtain ⟨w, hw⟩ := Option.isSome_iff_exists.mp hdom
        have hane : a ≠ "" := apply_time_key_ne_empty a w hw
        have h0 : buildSecureErasePayload (some a) =
            Except.ok [("@Redfish.OperationApplyTime", w)] := by
          simp [buildSecureErasePayload, pyTruthy, hane, hw]
        rw [h0] at hpl
        injection hpl with h
        simp [← h, hw]

/-- Witness for C4 with `apply_time = some "immediate"` on the sample
drive. -/
theorem secure_erase_posts_witness :
    sampleDrive.doc = some sampleDoc ∧
    sampleDoc.actions = some sampleActions ∧
    sampleActions.secure_erase = some
      (ActionElem.mk
        "/redfish/v1/Systems/1/Storage/1/Drives/1/Actions/Drive.SecureErase") ∧
    ((some "immediate").bind fun a =>
      APPLY_TIME_VALUE_MAP_REV.lookup a).isSome = (some "immediate").isSome ∧
    buildSecureErasePayload (some "immediate") =
      Except.ok [("@Redfish.OperationApplyTime", "Immediate")] ∧
    okConn.postResp
      "/redfish/v1/Systems/1/Storage/1/Drives/1/Actions/Drive.SecureErase"
      [("@Redfish.OperationApplyTime", "Immediate")] false = Except.ok 22 ∧
    (Drive.secureErase okConn sampleDrive (some "immediate") =
      (Except.ok (TaskMonitor.fromResponse okConn 22
        "/redfish/v1/Systems/1/Storage/1/Drives/1/Actions/Drive.SecureErase"
        sampleDrive.redfishVersion sampleDrive.registries), sampleDrive,
       [NetOp.post
         "/redfish/v1/Systems/1/Storage/1/Drives/1/Actions/Drive.SecureErase"
         [("@Redfish.OperationApplyTime", "Immediate")] false]) ∧
     [("@Redfish.OperationApplyTime", "Immediate")] =
      (match (some "immediate").bind
          fun a => APPLY_TIME_VALUE_MAP_REV.lookup a with
       | some w => [("@Redfish.OperationApplyTime", w)]
       | none => [])) :=
  ⟨rfl, rfl, rfl, rfl, rfl, rfl,
   secure_erase_posts_and_returns_task_monitor okConn sampleDrive sampleDoc
     sampleActions
     (ActionElem.mk
       "/redfish/v1/Systems/1/Storage/1/Drives/1/Actions/Drive.SecureErase")
     (some "immediate") [("@Redfish.OperationApplyTime", "Immediate")] 22
     rfl rfl rfl rfl rfl rfl⟩

/-- C6: on a document whose `Links.Volumes` reference list resolves to the
paths `paths`, `Drive.volumes` performs one sub-fetch per path (in order)
and returns, in the same order, one `Volume` per path, each bound to the
connector, the drive's protocol version and its registries. -/
theorem volumes_resolves_ordered_and_bound
    (c : Connector) (s : Drive) (d : Document) (paths : List String)
    (hc : s.volumesCache = none) (hdoc : s.doc = some d)
    (hl : d.linksVolumes = some (paths.map some)) :
    Drive.volumes c s =
      (Except.ok (paths.map fun p =>
         DriveVolume.mk c.nid p s.redfishVersion s.registries),
       { s with volumesCache := some (paths.map fun p =>
           DriveVolume.mk c.nid p s.redfishVersion s.registries) },
       paths.map NetOp.get) := by
  simp [Drive.volumes, hc, ensureDoc, hdoc, getSubResourcePathBy, hl,
    resolveRefs_map_some]

/-- Witness for C6 on the sample drive with two volume references. -/
theorem volumes_resolves_ordered_witness :
    sampleDrive.volumesCache = none ∧
    sampleDrive.doc = some sampleDoc ∧
    sampleDoc.linksVolumes =
      some (["/redfish/v1/Systems/1/Storage/1/Volumes/0",
             "/redfish/v1/Systems/1/Storage/1/Volumes/1"].map some) ∧
    Drive.volumes okConn sampleDrive =
      (Except.ok (["/redfish/v1/Systems/1/Storage/1/Volumes/0",
          "/redfish/v1/Systems/1/Storage/1/Volumes/1"].map fun p =>
         DriveVolume.mk okConn.nid p sampleDrive.redfishVersion
           sampleDrive.registries),
       Drive.mk sampleDrive.path sampleDrive.redfishVersion
         sampleDrive.registries sampleDrive.doc
         (some (["/redfish/v1/Systems/1/Storage/1/Volumes/0",
              "/redfish/v1/Systems/1/Storage/1/Volumes/1"].map fun p =>
            DriveVolume.mk okConn.nid p sampleDrive.redfishVersion
              sampleDrive.registries)),
       ["/redfish/v1/Systems/1/Storage/1/Volumes/0",
        "/redfish/v1/Systems/1/Storage/1/Volumes/1"].map NetOp.get) :=
  ⟨rfl, rfl, rfl,
   volumes_resolves_ordered_and_bound okConn sampleDrive sampleDoc
     ["/redfish/v1/Systems/1/Storage/1/Volumes/0",
      "/redfish/v1/Systems/1/Storage/1/Volumes/1"] rfl rfl rfl⟩

/-- Resolving a reference list in which some item lacks its `@odata.id`
target fails with `MissingAttributeError` naming that field, whatever the
well-formed references around it. -/
theorem resolveRefs_malformed_item (pre : List String)
    (rest : List (Option String)) (rp : String) :
    resolveRefs (pre.map some ++ none :: rest) rp =
      Except.error (SushyError.missingAttribute "@odata.id" rp) := by
  induction pre with
  | nil => rfl
  | cons p ps ih => simp [resolveRefs, ih]

/-- C7: `Drive.volumes` on a document whose `Links.Volumes` list is present
but empty returns the empty ordered sequence; on a document where the
`Links.Volumes` key path itself is absent it raises `MissingAttributeError`
for that key path; and on a document whose reference list is malformed (some
reference item lacks its `@odata.id` target) it raises
`MissingAttributeError` for the `@odata.id` field; no branch issues any
network operation beyond the cached document. -/
theorem volumes_empty_list_vs_missing_structure
    (c : Connector) (s1 s2 s3 : Drive) (d1 d2 d3 : Document)
    (pre : List String) (rest : List (Option String))
    (hc1 : s1.volumesCache = none) (hd1 : s1.doc = some d1)
    (hl1 : d1.linksVolumes = some [])
    (hc2 : s2.volumesCache = none) (hd2 : s2.doc = some d2)
    (hl2 : d2.linksVolumes = none)
    (hc3 : s3.volumesCache = none) (hd3 : s3.doc = some d3)
    (hl3 : d3.linksVolumes = some (pre.map some ++ none :: rest)) :
    Drive.volumes c s1 =
      (Except.ok [], { s1 with volumesCache := some [] }, []) ∧
    Drive.volumes c s2 =
      (Except.error (SushyError.missingAttribute "Links/Volumes" s2.path),
       s2, []) ∧
    Drive.volumes c s3 =
      (Except.error (SushyError.missingAttribute "@odata.id" s3.path),
       s3, []) := by
  refine ⟨?_, ?_, ?_⟩
  · simp [Drive.volumes, hc1, ensureDoc, hd1, getSubResourcePathBy, hl1,
      resolveRefs]
  · simp [Drive.volumes, hc2, ensureDoc, hd2, getSubResourcePathBy, hl2]
  · simp [Drive.volumes, hc3, ensureDoc, hd3, getSubResourcePathBy, hl3,
      resolveRefs_malformed_item]

/-- Witness for C7 on one drive with an empty reference list, one drive
whose document lacks the key path, and one drive whose reference list holds
a well-formed item followed by an item lacking its `@odata.id`. -/
theorem volumes_empty_vs_missing_witness :
    (Drive.mk "/dE" "1.0" 0 (some (Document.mk (some []) none))
        none).volumesCache = none ∧
    (Drive.mk "/dE" "1.0" 0 (some (Document.mk (some []) none)) none).doc =
      some (Document.mk (some []) none) ∧
    (Document.mk (some []) none).linksVolumes = some [] ∧
    (Drive.mk "/dM" "1.0" 0 (some (Document.mk none none))
        none).volumesCache = none ∧
    (Drive.mk "/dM" "1.0" 0 (some (Document.mk none none)) none).doc =
      some (Document.mk none none) ∧
    (Document.mk none none).linksVolumes = none ∧
    (Drive.mk "/dB" "1.0" 0
        (some (Document.mk (some [some "/v0", none]) none))
        none).volumesCache = none ∧
    (Drive.mk "/dB" "1.0" 0
        (some (Document.mk (some [some "/v0", none]) none)) none).doc =
      some (Document.mk (some [some "/v0", none]) none) ∧
    (Document.mk (some [some "/v0", none]) none).linksVolumes =
      some (["/v0"].map some ++ none :: []) ∧
    (Drive.volumes okConn
        (Drive.mk "/dE" "1.0" 0 (some (Document.mk (some []) none)) none) =
      (Except.ok [],
       Drive.mk "/dE" "1.0" 0 (some (Document.mk (some []) none)) (some []),
       []) ∧
     Drive.volumes okConn
        (Drive.mk "/dM" "1.0" 0 (some (Document.mk none none)) none) =
      (Except.error (SushyError.missingAttribute "Links/Volumes" "/dM"),
       Drive.mk "/dM" "1.0" 0 (some (Document.mk none none)) none, []) ∧
     Drive.volumes okConn
        (Drive.mk "/dB" "1.0" 0
          (some (Document.mk (some [some "/v0", none]) none)) none) =
      (Except.error (SushyError.missingAttribute "@odata.id" "/dB"),
       Drive.mk "/dB" "1.0" 0
         (some (Document.mk (some [some "/v0", none]) none)) none, [])) :=
  ⟨rfl, rfl, rfl, rfl, rfl, rfl, rfl, rfl, rfl,
   volumes_empty_list_vs_missing_structure okConn
     (Drive.mk "/dE" "1.0" 0 (some (Document.mk (some []) none)) none)
     (Drive.mk "/dM" "1.0" 0 (some (Document.mk none none)) none)
     (Drive.mk "/dB" "1.0" 0
       (some (Document.mk (some [some "/v0", none]) none)) none)
     (Document.mk (some []) none) (Document.mk none none)
     (Document.mk (some [some "/v0", none]) none)
     ["/v0"] []
     rfl rfl rfl rfl rfl rfl rfl rfl rfl⟩

/-- The state component of `Drive._secure_erase` is the input state whenever
the document is cached: no branch of the operation touches the drive. -/
theorem secureErasePost_state_unchanged
    (c : Connector) (s : Drive) (d : Document) (apply_time : Option String)
    (hdoc : s.doc = some d) :
    (Drive.secureErasePost c s apply_time).2.1 = s := by
  unfold Drive.secureErasePost
  cases hb : buildSecureErasePayload apply_time with
  | error e => rfl
  | ok payload =>
      simp only [ensureDoc, hdoc]
      cases hg : getSecureEraseActionElement d s.path with
      | error e => simp
      | ok el =>
          cases hp : c.postResp el.target_uri payload false <;> simp [hp]

/-- C8: `Drive.secure_erase` never invalidates the local resource — for
every cached document and every apply-time argument, whatever the outcome,
the drive state after the call (cached document and derived cached
properties included) is exactly the state before it. -/
theorem secure_erase_preserves_local_state
    (c : Connector) (s : Drive) (d : Document) (apply_time : Option String)
    (hdoc : s.doc = some d) :
    (Drive.secureErase c s apply_time).2.1 = s := by
  have h := secureErasePost_state_unchanged c s d apply_time hdoc
  unfold Drive.secureErase
  rcases hsp : Drive.secureErasePost c s apply_time with ⟨res, s1, tr⟩
  rw [hsp] at h
  cases res with
  | error e => simpa using h
  | ok v =>
      cases v with
      | mk r tu => simpa using h

/-- Witness for C8 on the sample drive with the default apply time. -/
theorem secure_erase_preserves_state_witness :
    sampleDrive.doc = some sampleDoc ∧
    (Drive.secureErase okConn sampleDrive none).2.1 = sampleDrive :=
  ⟨rfl, secure_erase_preserves_local_state okConn sampleDrive sampleDoc
    none rfl⟩

/-- C9: `Drive.volumes` is computed at most once per document generation —
a first access resolves the references and fills the cache, a second access
without an intervening invalidation returns the cached sequence with no new
network operation and an unchanged state, and after `invalidate` (which
drops document and cache) the next access recomputes the property, fetching
again. -/
theorem volumes_cached_per_generation
    (c : Connector) (s : Drive) (d : Document) (paths paths2 : List String)
    (hc : s.volumesCache = none) (hdoc : s.doc = some d)
    (hl : d.linksVolumes = some (paths.map some))
    (hg : (c.getDoc s.path).linksVolumes = some (paths2.map some)) :
    Drive.volumes c s =
      (Except.ok (paths.map fun p =>
         DriveVolume.mk c.nid p s.redfishVersion s.registries),
       { s with volumesCache := some (paths.map fun p =>
           DriveVolume.mk c.nid p s.redfishVersion s.registries) },
       paths.map NetOp.get) ∧
    Drive.volumes c
      { s with volumesCache := some (paths.map fun p =>
          DriveVolume.mk c.nid p s.redfishVersion s.registries) } =
      (Except.ok (paths.map fun p =>
         DriveVolume.mk c.nid p s.redfishVersion s.registries),
       { s with volumesCache := some (paths.map fun p =>
           DriveVolume.mk c.nid p s.redfishVersion s.registries) },
       []) ∧
    Drive.invalidate
      { s with volumesCache := some (paths.map fun p =>
          DriveVolume.mk c.nid p s.redfishVersion s.registries) } =
      { s with doc := none, volumesCache := none } ∧
    Drive.volumes c { s with doc := none, volumesCache := none } =
      (Except.ok (paths2.map fun p =>
         DriveVolume.mk c.nid p s.redfishVersion s.registries),
       { s with doc := some (c.getDoc s.path),
                volumesCache := some (paths2.map fun p =>
           DriveVolume.mk c.nid p s.redfishVersion s.registries) },
       NetOp.get s.path :: paths2.map NetOp.get) := by
  refine ⟨?_, ?_, ?_, ?_⟩
  · simp [Drive.volumes, hc, ensureDoc, hdoc, getSubResourcePathBy, hl,
      resolveRefs_map_some]
  · simp [Drive.volumes]
  · simp [Drive.invalidate]
  · simp [Drive.volumes, ensureDoc, getSubResourcePathBy, hg,
      resolveRefs_map_some]

/-- Witness for C9 on a one-volume drive whose connector re-serves the same
document. -/
theorem volumes_cached_witness :
    (Drive.mk "/d" "1.0" 5 (some (Document.mk (some [some "/v0"]) none))
        none).volumesCache = none ∧
    (Drive.mk "/d" "1.0" 5 (some (Document.mk (some [some "/v0"]) none))
        none).doc = some (Document.mk (some [some "/v0"]) none) ∧
    (Document.mk (some [some "/v0"]) none).linksVolumes =
      some (["/v0"].map some) ∧
    ((Connector.mk 3 (fun _ => Document.mk (some [some "/v0"]) none)
        (fun _ _ => Except.ok 1) fun _ _ _ => Except.ok 2).getDoc
      (Drive.mk "/d" "1.0" 5 (some (Document.mk (some [some "/v0"]) none))
        none).path).linksVolumes = some (["/v0"].map some) ∧
    (Drive.volumes
        (Connector.mk 3 (fun _ => Document.mk (some [some "/v0"]) none)
          (fun _ _ => Except.ok 1) fun _ _ _ => Except.ok 2)
        (Drive.mk "/d" "1.0" 5 (some (Document.mk (some [some "/v0"]) none))
          none) =
      (Except.ok [DriveVolume.mk 3 "/v0" "1.0" 5],
       Drive.mk "/d" "1.0" 5 (some (Document.mk (some [some "/v0"]) none))
         (some [DriveVolume.mk 3 "/v0" "1.0" 5]),
       [NetOp.get "/v0"]) ∧
     Drive.volumes
        (Connector.mk 3 (fun _ => Document.mk (some [some "/v0"]) none)
          (fun _ _ => Except.ok 1) fun _ _ _ => Except.ok 2)
        (Drive.mk "/d" "1.0" 5 (some (Document.mk (some [some "/v0"]) none))
          (some [DriveVolume.mk 3 "/v0" "1.0" 5])) =
      (Except.ok [DriveVolume.mk 3 "/v0" "1.0" 5],
       Drive.mk "/d" "1.0" 5 (some (Document.mk (some [some "/v0"]) none))
         (some [DriveVolume.mk 3 "/v0" "1.0" 5]),
       []) ∧
     Drive.invalidate
        (Drive.mk "/d" "1.0" 5 (some (Document.mk (some [some "/v0"]) none))
          (some [DriveVolume.mk 3 "/v0" "1.0" 5])) =
       Drive.mk "/d" "1.0" 5 none none ∧
     Drive.volumes
        (Connector.mk 3 (fun _ => Document.mk (some [some "/v0"]) none)
          (fun _ _ => Except.ok 1) fun _ _ _ => Except.ok 2)
        (Drive.mk "/d" "1.0" 5 none none) =
      (Except.ok [DriveVolume.mk 3 "/v0" "1.0" 5],
       Drive.mk "/d" "1.0" 5 (some (Document.mk (some [some "/v0"]) none))
         (some [DriveVolume.mk 3 "/v0" "1.0" 5]),
       [NetOp.get "/d", NetOp.get "/v0"])) :=
  ⟨rfl, rfl, rfl, rfl,
   volumes_cached_per_generation
     (Connector.mk 3 (fun _ => Document.mk (some [some "/v0"]) none)
       (fun _ _ => Except.ok 1) fun _ _ _ => Except.ok 2)
     (Drive.mk "/d" "1.0" 5 (some (Document.mk (some [some "/v0"]) none))
       none)
     (Document.mk (some [some "/v0"]) none) ["/v0"] ["/v0"]
     rfl rfl rfl rfl⟩

end Sushy
